import Mathlib

/-!
Verification of the winspool printer discovery and capability-retrieval
engine (`src/windows/winspool/info.rs` and `src/common`).

The native Windows calls (`EnumPrintersW`, `GetDefaultPrinterW`,
`DeviceCapabilitiesW`) are modelled as oracles: pure descriptions of
the responses the OS gives to each call the code makes.  The Rust
functions are translated statement by statement into Lean functions
over these oracles; alongside the functional result each translation
records which native sub-queries were actually issued, so that
claims about short-circuiting can be stated.

Machine integers: `c_int` is modelled as `Int`, `c_ulong` counts and
sizes as `Nat`; the Rust casts `as usize` / `as u64` are modelled by
reduction modulo `2 ^ 64` (both are 64-bit on the target platform).
Wide strings (`wchar_t` sequences) are modelled as `List Nat` of
16-bit units.
-/

namespace Winspool

/-- One response of the native `EnumPrintersW` call:
`result` is the returned `c_int` status (nonzero = success),
`needed` the value stored through `pcbNeeded`,
`count` the value stored through `pcReturned`. -/
structure EnumResponse where
  result : Int
  needed : Nat
  count : Nat

/-- The observable outcome of `enum_printers`:
how many native calls were made, the size of the buffer backing the
returned slice (`none` models the null pointer), whether that buffer
was ever written by a successful native call, and the length of the
returned slice (`count_printers`).  The Rust function's return type is
a plain slice: there is no error alternative. -/
structure EnumOutcome where
  callsMade : Nat
  bufSize : Option Nat
  filled : Bool
  count_printers : Nat
deriving DecidableEq

/-- Shallow embedding of `enum_printers` (info.rs:120-151).  The
`for _ in 0..2` loop is unrolled: at most two native calls happen.
Iteration 1 calls with the null buffer; on `result != 0 || needed == 0`
it breaks.  Otherwise a buffer of `needed` bytes is allocated and
iteration 2 calls again; on `result != 0 || needed == 0` it breaks
(the buffer is filled only when the call succeeded), otherwise a new
buffer of the newly reported size is allocated and the loop ends with
no further call.  Finally the function returns
`slice::from_raw_parts(buffer_ptr, count_printers)`. -/
def enum_printers (o : Nat → EnumResponse) : EnumOutcome :=
  let r0 := o 0
  if r0.result ≠ 0 ∨ r0.needed = 0 then
    { callsMade := 1, bufSize := none, filled := false,
      count_printers := r0.count }
  else
    let r1 := o 1
    if r1.result ≠ 0 ∨ r1.needed = 0 then
      { callsMade := 2, bufSize := some r0.needed, filled := decide (r1.result ≠ 0),
        count_printers := r1.count }
    else
      { callsMade := 2, bufSize := some r1.needed, filled := false,
        count_printers := r1.count }

/-- The wchar-valued fields of the winspool `PRINTER_INFO_2W` record
(info.rs:48-70) that the getters read, with pointed-to wide strings
modelled as lists of 16-bit units and the numeric fields as `Nat`.
The fields the getters never touch are omitted. -/
structure PRINTER_INFO_2W where
  pPrinterName : List Nat
  pPortName : List Nat
  pDriverName : List Nat
  pComment : List Nat
  pLocation : List Nat
  pPrintProcessor : List Nat
  pDatatype : List Nat
  Attributes : Nat
  Status : Nat
deriving DecidableEq

/-- Shallow embedding of `get_is_default` (info.rs:76-84).  The code
fetches the default printer name into `buffer` via two
`GetDefaultPrinterW` calls (size then fill; `defaultBuf` is the filled
buffer) and then evaluates `*self.pPrinterName == *buffer.as_ptr()`:
both sides dereference a `*mut wchar_t`, so only the FIRST 16-bit unit
of each name is compared. -/
def get_is_default (p : PRINTER_INFO_2W) (defaultBuf : List Nat) : Bool :=
  p.pPrinterName.headD 0 == defaultBuf.headD 0

/-- Shallow embedding of `get_default_printer` (info.rs:156-158):
finds the first enumerated record whose `get_is_default` is true. -/
def get_default_printer (printers : List PRINTER_INFO_2W) (defaultBuf : List Nat) :
    Option PRINTER_INFO_2W :=
  printers.find? (fun p => get_is_default p defaultBuf)

/-- Shallow embedding of `get_uri` (info.rs:94-96): returns the empty
string unconditionally. -/
def get_uri (_ : PRINTER_INFO_2W) : String :=
  ""

/-- The Rust cast `as usize` / `as u64` on a `c_int` value, on a
64-bit target: reduction modulo `2 ^ 64`. -/
def toUsize (i : Int) : Nat :=
  (i.emod (2 ^ 64)).toNat

/-- `DeviceCapabilities` (src/common/base/device_capabilities.rs):
`bin_count : u64` modelled as `Nat`, `bin_names : Vec<String>` as
`List String`. -/
structure DeviceCapabilities where
  bin_count : Nat
  bin_names : List String
deriving DecidableEq

/-- The responses of the three `DeviceCapabilitiesW` calls issued by
`get_device_capabilities`, in program order: `binsProbe` for `DC_BINS`
with a null output buffer, `binsFill` for `DC_BINS` with the bin-id
buffer, `namesFill` for `DC_BINNAMES` with the name buffer; `namesBuf`
gives the 16-bit unit at each index of the name buffer after that last
call. -/
structure DCOracle where
  binsProbe : Int
  binsFill : Int
  namesFill : Int
  namesBuf : Nat → Nat

/-- Which native capability sub-queries were issued (the `DC_BINS`
count probe is always issued first and is not recorded). -/
structure QueryTrace where
  binIdQueryIssued : Bool
  binNameQueryIssued : Bool
deriving DecidableEq

/-- The 24-unit name slot at index `i` of the bin-name buffer:
the code reads `slice::from_raw_parts(bin_names_ptr.add(i * 24), 24)`
(info.rs:222-223). -/
def slotAt (buf : Nat → Nat) (i : Nat) : List Nat :=
  (List.range 24).map (fun j => buf (i * 24 + j))

/-- Modelled from the spec: the wide-string decoder
`wchar_t_to_string` lives in `src/windows/utils/strings.rs`, which is
not part of the provided sources.  Spec section 4.5: decoding scans the
slot for the first terminator unit; the text before the terminator (or
the full slot if no terminator is present) is converted to the host
text representation. -/
def wchar_t_to_string (slot : List Nat) : String :=
  String.mk ((slot.takeWhile (fun u => u ≠ 0)).map Char.ofNat)

/-- Shallow embedding of `get_device_capabilities` (info.rs:169-237),
paired with the trace of which native sub-queries were issued.
Step 1 reads the bin count (`DC_BINS`, null buffer); `-1` returns
`None` before any further query.  Step 2 issues the bin-id query and
returns `None` on a count mismatch, before any name query.  Step 3
issues the bin-name query; names are decoded (24-unit slots, in slot
order) only when its count matches, otherwise `bin_names` stays empty;
either way `Some {bin_count, bin_names}` is returned. -/
def get_device_capabilities (o : DCOracle) : Option DeviceCapabilities × QueryTrace :=
  let bin_count := o.binsProbe
  if bin_count = -1 then
    (none, ⟨false, false⟩)
  else
    let bin_count_result := o.binsFill
    if bin_count_result ≠ bin_count then
      (none, ⟨true, false⟩)
    else
      let bin_names_result := o.namesFill
      let bin_names :=
        if bin_names_result = bin_count then
          (List.range (toUsize bin_count)).map
            (fun i => wchar_t_to_string (slotAt o.namesBuf i))
        else
          []
      (some { bin_count := toUsize bin_count, bin_names := bin_names }, ⟨true, true⟩)

/-- Shallow embedding of `get_bin_count`
(`PlatformDeviceCapabilitiesGetters`, info.rs:240-244):
`get_device_capabilities(self).map(|c| c.bin_count).unwrap_or(0)`. -/
def get_bin_count (o : DCOracle) : Nat :=
  match (get_device_capabilities o).1 with
  | some c => c.bin_count
  | none => 0

/-- Shallow embedding of `get_bin_names` (info.rs:245-249):
`get_device_capabilities(self).map(|c| c.bin_names).unwrap_or_default()`. -/
def get_bin_names (o : DCOracle) : List String :=
  match (get_device_capabilities o).1 with
  | some c => c.bin_names
  | none => []

/-! Concrete oracles for the scenarios named by the spec. -/

/-- Enumeration oracle for spec Scenario C: the size call reports 200
bytes needed; the fill call fails (the directory grew) reporting 260
bytes needed with 5 records enumerable; a hypothetical further call
would report 300. -/
def oracleC : Nat → EnumResponse := fun n =>
  if n = 0 then ⟨0, 200, 0⟩
  else if n = 1 then ⟨0, 260, 5⟩
  else ⟨0, 300, 6⟩

/-- Enumeration oracle whose first (size) call reports zero bytes
needed and zero records. -/
def oracleEmptyDir : Nat → EnumResponse := fun _ => ⟨1, 0, 0⟩

/-- Pads a bin name to its fixed 24-unit slot with terminator units. -/
def padSlot (units : List Nat) : List Nat :=
  units ++ List.replicate (24 - units.length) 0

/-- The bin-name buffer of spec Scenario A: three 24-unit slots
holding the terminated names "Tray1", "Tray2", "Tray3". -/
def scenarioABuf : Nat → Nat := fun i =>
  (padSlot [84, 114, 97, 121, 49] ++
   padSlot [84, 114, 97, 121, 50] ++
   padSlot [84, 114, 97, 121, 51]).getD i 0

/-- Capability oracle for spec Scenario A: count query 3, id query 3,
name query 3 with the Tray1/Tray2/Tray3 slots. -/
def oracleA : DCOracle := ⟨3, 3, 3, scenarioABuf⟩

/-- Capability oracle for spec Scenario B: count query 2, id query 1
(count mismatch). -/
def oracleB : DCOracle := ⟨2, 1, 0, fun _ => 0⟩

/-- Capability oracle whose count query returns 0 bins. -/
def oracleZero : DCOracle := ⟨0, 0, 0, fun _ => 0⟩

/-- Capability oracle whose count query returns the sentinel -1. -/
def oracleSentinel : DCOracle := ⟨-1, 0, 0, fun _ => 0⟩

/-- Capability oracle with a name-table count mismatch: count query 2,
id query 2, name query 3. -/
def oracleNameMismatch : DCOracle := ⟨2, 2, 3, fun _ => 0⟩

/-- The record "Brother" (terminated UTF-16 units) with empty other
fields. -/
def brotherPrinter : PRINTER_INFO_2W :=
  ⟨[66, 114, 111, 116, 104, 101, 114, 0], [], [], [], [], [], [], 0, 0⟩

/-- The default-printer name buffer holding "Bizhub" (terminated). -/
def bizhubName : List Nat := [66, 105, 122, 104, 117, 98, 0]

/-! Theorems -/

/-- C1 (counterexample): in spec Scenario C (size call reports 200,
fill call fails reporting 260 with 5 records) `enum_printers` makes
exactly 2 native calls — no retry call ever happens — and returns a
5-record device-list slice over a buffer that was never filled,
instead of retrying and failing with an Unstable negotiation error
(no error outcome exists in the function's return type). -/
theorem c1_no_retry_counterexample :
    (enum_printers oracleC).callsMade = 2 ∧
    (enum_printers oracleC).filled = false ∧
    (enum_printers oracleC).bufSize = some 260 ∧
    (enum_printers oracleC).count_printers = 5 := by
  decide

/-- C1 (amended): if the first (size) call fails with a nonzero needed
size and the second (fill) call also fails with a nonzero needed size
(the directory grew), `enum_printers` makes no further native call: it
allocates a buffer of the newly reported size and returns it, unfilled,
as a slice of the last reported record count; no error is returned. -/
theorem c1_growth_no_retry (o : Nat → EnumResponse)
    (h0r : (o 0).result = 0) (h0n : (o 0).needed ≠ 0)
    (h1r : (o 1).result = 0) (h1n : (o 1).needed ≠ 0) :
    enum_printers o =
      { callsMade := 2, bufSize := some ((o 1).needed), filled := false,
        count_printers := (o 1).count } := by
  unfold enum_printers
  simp [h0r, h0n, h1r, h1n]

/-- C1 (witness): the growth theorem applied to the Scenario C
oracle. -/
theorem c1_growth_no_retry_witness :
    enum_printers oracleC =
      { callsMade := 2, bufSize := some 260, filled := false,
        count_printers := 5 } :=
  c1_growth_no_retry oracleC rfl (by decide) rfl (by decide)

/-- C2 (code bug evaluated): `get_is_default` dereferences the two
name pointers, comparing only the first 16-bit unit of each name.  The
record "Brother" is therefore reported as the default when the native
default identifier is "Bizhub" (both start with the unit 66, 'B'),
although the identifiers are not byte-for-byte equal, and
`get_default_printer` resolves "Brother" as the default record. -/
theorem c2_first_unit_only :
    get_is_default brotherPrinter bizhubName = true ∧
    brotherPrinter.pPrinterName ≠ bizhubName ∧
    get_default_printer [brotherPrinter] bizhubName = some brotherPrinter := by
  decide

/-- C3 (counterexample): with a bin-count query returning 0, the probe
does not short-circuit: it issues the bin-id query and (the id query
returning 0 as well) the bin-name query. -/
theorem c3_no_short_circuit_counterexample :
    oracleZero.binsProbe = 0 ∧
    (get_device_capabilities oracleZero).2.binIdQueryIssued = true ∧
    (get_device_capabilities oracleZero).2.binNameQueryIssued = true := by
  decide

/-- C3 (amended): when the bin-count query returns 0 the probe always
issues the bin-id native query (with a zero-sized buffer), and when the
bin-id query also returns 0 it issues the bin-name native query as
well; only the sentinel -1 short-circuits. -/
theorem c3_zero_count_still_queries (o : DCOracle) (h : o.binsProbe = 0) :
    (get_device_capabilities o).2.binIdQueryIssued = true ∧
    (o.binsFill = 0 → (get_device_capabilities o).2.binNameQueryIssued = true) := by
  unfold get_device_capabilities
  by_cases h2 : o.binsFill = 0 <;> simp [h, h2]

/-- C3 (witness): the amended theorem at the zero-count oracle. -/
theorem c3_zero_count_still_queries_witness :
    (get_device_capabilities oracleZero).2.binIdQueryIssued = true ∧
    (oracleZero.binsFill = 0 →
      (get_device_capabilities oracleZero).2.binNameQueryIssued = true) :=
  c3_zero_count_still_queries oracleZero rfl

/-- C4 (counterexample): in spec Scenario B (count query 2, id query 1)
the probe returns `none`, so callers of the getters receive
`bin_count = 0` — not the claimed `bin_count = 2`. -/
theorem c4_mismatch_counterexample :
    (get_device_capabilities oracleB).1 = none ∧
    get_bin_count oracleB = 0 ∧
    ¬ get_bin_count oracleB = 2 ∧
    get_bin_names oracleB = [] ∧
    (get_device_capabilities oracleB).2.binNameQueryIssued = false := by
  decide

/-- C4 (amended): if the bin-count query returns 2 and the bin-id
query returns 1 (a count mismatch), the probe returns `none`; through
the getter interface callers receive `{bin_count := 0, bin_names := []}`,
and no bin-name query is attempted. -/
theorem c4_mismatch_yields_none (o : DCOracle)
    (h1 : o.binsProbe = 2) (h2 : o.binsFill = 1) :
    (get_device_capabilities o).1 = none ∧
    get_bin_count o = 0 ∧
    get_bin_names o = [] ∧
    (get_device_capabilities o).2.binNameQueryIssued = false := by
  unfold get_bin_count get_bin_names get_device_capabilities
  simp [h1, h2]

/-- C4 (witness): the amended theorem at the Scenario B oracle. -/
theorem c4_mismatch_yields_none_witness :
    (get_device_capabilities oracleB).1 = none ∧
    get_bin_count oracleB = 0 ∧
    get_bin_names oracleB = [] ∧
    (get_device_capabilities oracleB).2.binNameQueryIssued = false :=
  c4_mismatch_yields_none oracleB rfl rfl

/-- C5: every `DeviceCapabilities` value the probe returns has
`bin_names` either empty or of length exactly `bin_count`. -/
theorem c5_bin_names_length (o : DCOracle) (caps : DeviceCapabilities)
    (h : (get_device_capabilities o).1 = some caps) :
    caps.bin_names.length = 0 ∨ caps.bin_names.length = caps.bin_count := by
  unfold get_device_capabilities at h
  by_cases h1 : o.binsProbe = -1
  · simp [h1] at h
  · by_cases h2 : o.binsFill = o.binsProbe
    · by_cases h3 : o.namesFill = o.binsProbe
      · simp [h1, h2, h3] at h
        right
        rw [← h]
        simp
      · simp [h1, h2, h3] at h
        left
        rw [← h]
        rfl
    · simp [h1, h2] at h

/-- C5 (witness): the invariant at the Scenario A oracle and its
returned capabilities. -/
theorem c5_bin_names_length_witness :
    (DeviceCapabilities.mk 3 ["Tray1", "Tray2", "Tray3"]).bin_names.length = 0 ∨
    (DeviceCapabilities.mk 3 ["Tray1", "Tray2", "Tray3"]).bin_names.length =
      (DeviceCapabilities.mk 3 ["Tray1", "Tray2", "Tray3"]).bin_count :=
  c5_bin_names_length oracleA ⟨3, ["Tray1", "Tray2", "Tray3"]⟩ (by decide)

/-- C6: a sentinel -1 from the bin-count query makes the probe return
`none`, and the getter interface delivers `bin_count = 0` and
`bin_names = []` to the caller — a zeroed/empty structural result, not
an error value. -/
theorem c6_sentinel_zeroed (o : DCOracle) (h : o.binsProbe = -1) :
    (get_device_capabilities o).1 = none ∧
    get_bin_count o = 0 ∧
    get_bin_names o = [] := by
  unfold get_bin_count get_bin_names get_device_capabilities
  simp [h]

/-- C6 (witness): the sentinel theorem at the sentinel oracle. -/
theorem c6_sentinel_zeroed_witness :
    (get_device_capabilities oracleSentinel).1 = none ∧
    get_bin_count oracleSentinel = 0 ∧
    get_bin_names oracleSentinel = [] :=
  c6_sentinel_zeroed oracleSentinel rfl

/-- C7: when the bin-name query returns a count different from the
previously obtained bin count (the count and id queries having agreed),
the probe degrades gracefully: it returns `Some` with `bin_count` set
and `bin_names` empty, and the getters deliver that count and the empty
list — no error is raised. -/
theorem c7_name_mismatch_degrades (o : DCOracle) (hs : o.binsProbe ≠ -1)
    (hid : o.binsFill = o.binsProbe) (hn : o.namesFill ≠ o.binsProbe) :
    (get_device_capabilities o).1 = some ⟨toUsize o.binsProbe, []⟩ ∧
    get_bin_count o = toUsize o.binsProbe ∧
    get_bin_names o = [] := by
  unfold get_bin_count get_bin_names get_device_capabilities
  simp [hs, hid, hn]

/-- C7 (witness): the degradation theorem at the name-mismatch
oracle. -/
theorem c7_name_mismatch_degrades_witness :
    (get_device_capabilities oracleNameMismatch).1 = some ⟨2, []⟩ ∧
    get_bin_count oracleNameMismatch = 2 ∧
    get_bin_names oracleNameMismatch = [] :=
  c7_name_mismatch_degrades oracleNameMismatch (by decide) rfl (by decide)

/-- C8: in the fully successful Scenario A (count 3, id count 3, name
count 3 with terminated slots "Tray1", "Tray2", "Tray3") the probe
returns exactly `{bin_count := 3, bin_names := ["Tray1", "Tray2",
"Tray3"]}`, each 24-unit slot decoded independently up to its first
terminator, in slot order. -/
theorem c8_scenario_a :
    (get_device_capabilities oracleA).1 =
      some ⟨3, ["Tray1", "Tray2", "Tray3"]⟩ := by
  decide

/-- C9: when the first (size-probing) enumeration call reports a
needed size of zero (and, per the native contract, zero returned
records), `enum_printers` stops after that single call and returns the
empty slice over the null pointer — a valid empty result, not an
error. -/
theorem c9_zero_hint_empty (o : Nat → EnumResponse)
    (hn : (o 0).needed = 0) (hc : (o 0).count = 0) :
    enum_printers o =
      { callsMade := 1, bufSize := none, filled := false,
        count_printers := 0 } := by
  unfold enum_printers
  simp [hn, hc]

/-- C9 (witness): the zero-hint theorem at the empty-directory
oracle. -/
theorem c9_zero_hint_empty_witness :
    enum_printers oracleEmptyDir =
      { callsMade := 1, bufSize := none, filled := false,
        count_printers := 0 } :=
  c9_zero_hint_empty oracleEmptyDir rfl rfl

/-- C10: `get_uri` returns the empty string for every device record,
regardless of the record's fields. -/
theorem c10_get_uri_empty (p : PRINTER_INFO_2W) : get_uri p = "" :=
  rfl

end Winspool
